import Mathlib

/-
Verification of the `dynamic-state-machine` engine (`src/state_machine.rs`)
against its natural-language specification.

The development is a shallow embedding of the Rust source:

* the Template Resolver (`StateMachine::process_placeholders`, lines 272-305)
  is embedded as a pure function over the character list of the template,
  with the process environment injected as a lookup function
  (`String → Option String`, mirroring `std::env::var(..).ok()`);
* the configuration data model is embedded as a mutual inductive family.
  `src/config.rs` and `src/models.rs` in the repository are stale copies that
  do not define the `Action` / `AgentData` / `AgentConfigSource` shapes which
  `state_machine.rs` imports and matches on; those shapes are reconstructed
  from their exhaustive use inside `state_machine.rs` (the `match` in
  `execute_action`, the field accesses, the unit test at the bottom of the
  file) and from the field lists in the specification, section 3;
* effectful sub-operations (the HTTP transport behind `call_api_data`, file
  loading of a child configuration, the spawned child's own run, the single
  broadcast receive inside `WaitForInput`) are oracles collected in an
  `Effects` record: the engine's own logic is embedded exactly, while the
  collaborators the spec declares out of scope are parameters;
* the `run` loop (lines 72-150) is embedded as a fuel-indexed recursive
  function; `none` means the fuel ran out before the loop terminated, and the
  `Except` layer mirrors the `Result<Vec<String>, anyhow::Error>` return type
  together with the two `?` sites inside the loop body.
-/

namespace DSM

/-! ## Template resolver: JSON string-fragment parsing

`process_placeholders` feeds each captured marker text `t` to
`serde_json::from_str::<Placeholder>(&format!("\"{}\"", t))`.  The wrapped
text parses exactly when `t` is a valid JSON string body: no raw `"`, no raw
control character below U+0020, and after each `\` one of the escapes
`" \ / b f n r t uXXXX` (with strict surrogate pairing, as `serde_json`
enforces for `from_str`).  `jsonStringParse` decides this and returns the
decoded character list. -/

def hexVal (c : Char) : Option Nat :=
  if '0' ≤ c ∧ c ≤ '9' then some (c.toNat - '0'.toNat)
  else if 'a' ≤ c ∧ c ≤ 'f' then some (c.toNat - 'a'.toNat + 10)
  else if 'A' ≤ c ∧ c ≤ 'F' then some (c.toNat - 'A'.toNat + 10)
  else none

def hex4 (a b c d : Char) : Option Nat := do
  let x ← hexVal a
  let y ← hexVal b
  let z ← hexVal c
  let w ← hexVal d
  some (((x * 16 + y) * 16 + z) * 16 + w)

def jsonStringParse : List Char → Option (List Char)
  | [] => some []
  | '"' :: _ => none
  | '\\' :: rest =>
    match rest with
    | '"' :: r => (jsonStringParse r).map (fun t => '"' :: t)
    | '\\' :: r => (jsonStringParse r).map (fun t => '\\' :: t)
    | '/' :: r => (jsonStringParse r).map (fun t => '/' :: t)
    | 'b' :: r => (jsonStringParse r).map (fun t => Char.ofNat 8 :: t)
    | 'f' :: r => (jsonStringParse r).map (fun t => Char.ofNat 12 :: t)
    | 'n' :: r => (jsonStringParse r).map (fun t => '\n' :: t)
    | 'r' :: r => (jsonStringParse r).map (fun t => Char.ofNat 13 :: t)
    | 't' :: r => (jsonStringParse r).map (fun t => '\t' :: t)
    | 'u' :: h1 :: h2 :: h3 :: h4 :: r =>
      match hex4 h1 h2 h3 h4 with
      | none => none
      | some n =>
        if n < 0xD800 ∨ 0xE000 ≤ n then
          (jsonStringParse r).map (fun t => Char.ofNat n :: t)
        else if n < 0xDC00 then
          -- leading surrogate: serde_json's strict parser requires an
          -- immediately following `\uXXXX` trailing surrogate
          match r with
          | '\\' :: 'u' :: k1 :: k2 :: k3 :: k4 :: r2 =>
            match hex4 k1 k2 k3 k4 with
            | none => none
            | some m =>
              if 0xDC00 ≤ m ∧ m < 0xE000 then
                (jsonStringParse r2).map
                  (fun t => Char.ofNat (0x10000 + (n - 0xD800) * 0x400 + (m - 0xDC00)) :: t)
              else none
          | _ => none
        else none -- lone trailing surrogate is rejected
    | _ => none
  | c :: rest =>
    if c.toNat < 0x20 then none else (jsonStringParse rest).map (fun t => c :: t)

/-! ## The `Placeholder` enum and its untagged deserialization -/

/-- The `Placeholder` enum of `state_machine.rs` lines 322-328:
`Input`, `Output` are unit variants and `Env` is a newtype variant over
`String`; the derive is `#[serde(untagged)]`. -/
inductive Placeholder where
  | input : Placeholder
  | output : Placeholder
  | env : String → Placeholder

/-- Deserialization of a marker text, embedding
`serde_json::from_str::<Placeholder>(&format!("\"{}\"", placeholder_text))`.

With `#[serde(untagged)]`, serde tries the variants in declaration order
against the parsed JSON value.  A unit variant of an untagged enum is
deserialized through serde's `UntaggedUnitVisitor`, which accepts only JSON
`null` (visit_unit / visit_none) — it never accepts a JSON string.  The
marker text is always presented as a JSON *string*, so `Input` and `Output`
can never be selected; whenever the quoted text parses as a JSON string, the
newtype variant `Env` is selected and receives the decoded text verbatim
(including any `env:` prefix — nothing in the source strips one).  The
deserialization fails only when the quoted text is not a valid JSON string
(a raw `"`, a raw control character, or a bad escape). -/
def parsePlaceholder (text : List Char) : Option Placeholder :=
  (jsonStringParse text).map (fun s => Placeholder.env (String.mk s))

/-- Process environment, injected as a lookup function: `env name` is
`some v` when the variable is set to the unicode value `v`, and `none` when
unset (or not unicode, which `env::var` also reports as an `Err`). -/
abbrev EnvMap := String → Option String

/-- The `match placeholder { ... }` of lines 291-301.  The `input` and
`output` arms return the supplied context value (both arms read
`response_buffer.cloned().unwrap_or_default()` on the same `Option<&String>`
argument); the `env` arm reads the process environment.  Note that under the
untagged deserialization above the first two arms are unreachable: they are
embedded nonetheless, exactly as written in the source. -/
def placeholderValue (env : EnvMap) (ctx : Option String) : Placeholder → String
  | .input => ctx.getD ""
  | .output => ctx.getD ""
  | .env var_name => (env var_name).getD ""

/-- Replacement for one captured marker text (the closure of lines 278-302):
an undeserializable text is logged as an invalid placeholder and replaced by
the empty string; a deserialized placeholder is replaced by its value. -/
def substMarker (env : EnvMap) (ctx : Option String) (cap : List Char) : List Char :=
  match parsePlaceholder cap with
  | none => []
  | some p => (placeholderValue env ctx p).data

/-! ## The regex scan

`Regex::new(r"\{([^}]+)\}")` with `replace_all` rewrites every leftmost,
non-overlapping occurrence of a `{`, followed by one or more characters none
of which is `}`, followed by `}`.  Because the character class excludes `}`,
greedy matching from a given `{` always captures exactly the characters up
to the *next* `}` (requiring at least one), and scanning resumes after that
`}`.  `replaceCore` is that scan as a single left-to-right pass:
`acc = none` means no pending `{`; `acc = some pend` means a `{` has been
seen and `pend` holds (reversed) the characters read since.  A `{}` with
nothing between emits both characters literally (the `+` requires a
non-empty capture), and an unclosed `{` at end of input is emitted
literally (the regex finds no match without a closing `}`). -/
def replaceCore (repl : List Char → List Char) : List Char → Option (List Char) → List Char
  | [], none => []
  | [], some pend => '{' :: pend.reverse
  | c :: rest, none =>
    if c = '{' then replaceCore repl rest (some [])
    else c :: replaceCore repl rest none
  | c :: rest, some pend =>
    if c = '}' then
      if pend.isEmpty then '{' :: '}' :: replaceCore repl rest none
      else repl pend.reverse ++ replaceCore repl rest none
    else replaceCore repl rest (some (c :: pend))

/-- `StateMachine::process_placeholders` (lines 272-305) as a pure string
function.  The source returns `Result<String, anyhow::Error>`; its only
error path is `Regex::new` on the constant pattern `r"\{([^}]+)\}"`, which
compiles, so the function is total — `process_placeholders_result` below
carries the always-`Ok` `Result` wrapper used at the call sites. -/
def process_placeholders (env : EnvMap) (template : String) (response_buffer : Option String) : String :=
  String.mk (replaceCore (substMarker env response_buffer) template.data none)

/-- Errors that a single action (or construction) can report; the payloads
identify the failing collaborator the way `anyhow` context does. -/
inductive ActionError where
  | transport : String → ActionError
  | configLoad : String → ActionError
  | joinPanic : String → ActionError
  | childFailed : String → ActionError
  | sendError : String → ActionError
deriving DecidableEq

/-- The `Result`-typed view of `process_placeholders`, as used with `?` at
lines 102-104, 109-112 and 163-166 of the source: always `Except.ok`. -/
def process_placeholders_result (env : EnvMap) (template : String)
    (response_buffer : Option String) : Except ActionError String :=
  .ok (process_placeholders env template response_buffer)

/-! ## Data model

`state_machine.rs` imports `Config`, `Action`, `ActionDiscriminants` from
`crate::config` and `AgentConfigSource`, `CallApiData` from `crate::models`,
but the `config.rs` / `models.rs` files in the repository are stale copies
that lack these shapes.  Modelled from the spec: the variant and field lists
below follow specification section 3 and the exhaustive `match` plus field
accesses inside `state_machine.rs` (`execute_action` lines 157-255, the
constructor scan lines 39-49, and the unit test lines 336-374). -/

/-- HTTP method enum (spec section 3; the stale `models.rs` agrees). -/
inductive HttpMethod where
  | get | post | put | delete | patch | head | options
deriving DecidableEq

/-- Payload of `CallApi` (spec section 3; the stale `models.rs` agrees). -/
structure CallApiData where
  url : String
  auth_header_name : String
  auth_header_value : String
  method : HttpMethod
  body : Option String
deriving DecidableEq

/-- Payload of `Llm` (spec section 3; the stale `models.rs` agrees). -/
structure LlmData where
  user_prompt : String
  system_prompt : Option String
deriving DecidableEq

mutual

/-- The configuration document: `label`, `initial_state_key`, `states`,
`output_stream` (fields constructed by the unit test at lines 339-352).
The `states` map is a JSON object, so its keys are distinct; it is embedded
as an association list queried through `assoc_lookup` below, which returns
the first (hence, with distinct keys, the only) binding — the observable
content of a `HashMap`. -/
inductive Config where
  | mk : (label : String) → (initial_state_key : String) →
      (states : List (String × AgentConfig)) → (output_stream : Option String) → Config

/-- One state: an ordered action list and an optional next-state template
(`crate::config::AgentConfig` as constructed at lines 344-347). -/
inductive AgentConfig where
  | mk : (actions : List Action) → (next_state : Option String) → AgentConfig

/-- The action union, with exactly the variants the exhaustive `match` of
`execute_action` dispatches on. -/
inductive Action where
  | callApi : CallApiData → Action
  | llm : LlmData → Action
  | spawnAgent : AgentData → Action
  | waitForInput : Action
  | yield : Action
  | getAgentConfig : String → Action
  | setAgentConfig : String → Action

/-- Payload of `SpawnAgent`: `config_source`, `label`, `is_background`,
`input_label`, `output_label` (spec section 3; `state_machine.rs` reads
`config_source`, `input_label`, `output_label`). -/
inductive AgentData where
  | mk : (config_source : AgentConfigSource) → (label : String) →
      (is_background : Bool) → (input_label : String) → (output_label : String) → AgentData

/-- Child configuration source: a file path or an inline document. -/
inductive AgentConfigSource where
  | file : String → AgentConfigSource
  | inline : Config → AgentConfigSource

end

def Config.label : Config → String
  | .mk l _ _ _ => l

def Config.initial_state_key : Config → String
  | .mk _ k _ _ => k

def Config.states : Config → List (String × AgentConfig)
  | .mk _ _ s _ => s

def Config.output_stream : Config → Option String
  | .mk _ _ _ o => o

def AgentConfig.actions : AgentConfig → List Action
  | .mk a _ => a

def AgentConfig.next_state : AgentConfig → Option String
  | .mk _ n => n

def AgentData.config_source : AgentData → AgentConfigSource
  | .mk c _ _ _ _ => c

def AgentData.label : AgentData → String
  | .mk _ l _ _ _ => l

def AgentData.is_background : AgentData → Bool
  | .mk _ _ b _ _ => b

def AgentData.input_label : AgentData → String
  | .mk _ _ _ i _ => i

def AgentData.output_label : AgentData → String
  | .mk _ _ _ _ o => o

/-- First-binding association-list lookup: the observable behaviour of
`HashMap::get` (keys are unique in every map the engine builds). -/
def assoc_lookup {α β : Type} [DecidableEq α] : List (α × β) → α → Option β
  | [], _ => none
  | (k, v) :: rest, key => if k = key then some v else assoc_lookup rest key

/-- `self.config.states.get(&key)`. -/
def lookupState (c : Config) (key : String) : Option AgentConfig :=
  assoc_lookup c.states key

/-! ## Channel registry and machine state -/

/-- A `tokio::sync::broadcast` channel, by its observable parameters:
the bounded history capacity it was created with, and the number of live
receivers (a `send` fails exactly when there are none). -/
structure BroadcastChannel where
  capacity : Nat
  receivers : Nat
deriving DecidableEq

/-- The channel `broadcast::channel(100)` creates at line 45 (its `_rx`
half is dropped immediately, so it starts with no live receiver). -/
def freshChannel100 : BroadcastChannel := { capacity := 100, receivers := 0 }

/-- The `StateMachine` struct (lines 17-25).  The reload inbox
`config_update_rx` is embedded by its queued contents, drained FIFO by
`try_recv`; the paired sender handle carries no state of its own. -/
structure StateMachine where
  config : Config
  current_state_key : String
  input_rx : Option BroadcastChannel
  output_tx : Option BroadcastChannel
  config_update_rx : List Config
  streams_map : List (String × BroadcastChannel)

/-- The output labels of every `SpawnAgent` action in every state of a
configuration, in scan order. -/
def spawnOutputLabels (c : Config) : List String :=
  (c.states.map Prod.snd).flatMap
    (fun st => st.actions.filterMap
      (fun a => match a with
        | .spawnAgent agent_data => some agent_data.output_label
        | _ => none))

/-- The registry scan of `StateMachine::new` (lines 36-49): for every
`SpawnAgent` action anywhere in the configuration's states, insert a fresh
`broadcast::channel(100)` sender under its `output_label`.  `HashMap`
iteration order is arbitrary and a repeated label replaces the previous
(identical, fresh) channel; consing each insertion in front of the list with
first-binding lookup realizes exactly that replace-on-insert observable
behaviour. -/
def build_streams_map (c : Config) : List (String × BroadcastChannel) :=
  (spawnOutputLabels c).foldl
    (fun m l => (l, freshChannel100) :: m) []

/-- `StateMachine::new` after a successful configuration load
(lines 51-59): initial state key taken from the configuration, no input or
output channel wired, empty reload inbox, eagerly built registry. -/
def StateMachine.new (config : Config) : StateMachine :=
  { config := config
    current_state_key := config.initial_state_key
    input_rx := none
    output_tx := none
    config_update_rx := []
    streams_map := build_streams_map config }

/-- `StateMachine::new_with_config` (lines 307-319): like `new` but with an
empty registry (used for spawned children). -/
def StateMachine.new_with_config (config : Config) : StateMachine :=
  { config := config
    current_state_key := config.initial_state_key
    input_rx := none
    output_tx := none
    config_update_rx := []
    streams_map := [] }

/-! ## Effect oracles -/

/-- Outcome of the single `input_rx.recv()` attempt raced against the
10-second deadline in `WaitForInput` (lines 219-236). -/
inductive RecvOutcome where
  | received : String → RecvOutcome
  | closed : RecvOutcome
  | lagged : Nat → RecvOutcome
  | timedOut : RecvOutcome
deriving DecidableEq

/-- The external collaborators, injected as oracles: the process
environment, the HTTP transport behind `call_api_data`, the file loader
`load_config_from_path`, the spawned child's complete run
(`tokio::spawn { new_with_config(cfg).run() }.await??` — a `joinPanic` or
`childFailed` error stands for the task panicking or the child's own run
failing), and the outcome of the one receive attempt of `WaitForInput`. -/
structure Effects where
  env : EnvMap
  api : CallApiData → Except ActionError String
  load_config_from_path : String → Except ActionError Config
  childRun : Config → Option BroadcastChannel → Option BroadcastChannel →
      Except ActionError (List String)
  inputEvent : RecvOutcome

/-- The fixed deadline passed to `tokio::time::timeout` at line 219:
`Duration::from_secs(10)`. -/
def waitForInputTimeoutSecs : Nat := 10

/-! ## Action dispatch -/

/-- `StateMachine::execute_action` (lines 152-256). -/
def execute_action (fx : Effects) (sm : StateMachine) (action : Action)
    (response_buffer : List String) : Except ActionError (Option String) :=
  match action with
  | .callApi call_api_data =>
    -- lines 158-161: the transport result is returned as `Some(response)`;
    -- a transport error is this action's error
    (fx.api call_api_data).map some
  | .llm llm_data =>
    -- lines 162-176: both prompts are resolved against the first buffer
    -- element (`user_prompt` with `?`, `system_prompt` with `.ok()`), only
    -- logged, and the action returns `Ok(None)`
    match process_placeholders_result fx.env llm_data.user_prompt response_buffer.head? with
    | .error e => .error e
    | .ok _user_prompt => .ok none
  | .spawnAgent agent_data =>
    -- lines 177-213
    match (match agent_data.config_source with
           | .file agent_config_file => fx.load_config_from_path agent_config_file
           | .inline agent_config => .ok agent_config) with
    | .error e => .error e
    | .ok agent_config =>
      let input_rx := assoc_lookup sm.streams_map agent_data.input_label
      let output_tx := assoc_lookup sm.streams_map agent_data.output_label
      (fx.childRun agent_config input_rx output_tx).map
        (fun res => some (String.intercalate "\n" res))
  | .waitForInput =>
    -- lines 214-237: one receive attempt, no retry, never an error
    match sm.input_rx with
    | none => .ok none
    | some _ =>
      match fx.inputEvent with
      | .received input => .ok (some input)
      | .closed => .ok none
      | .lagged _ => .ok none
      | .timedOut => .ok none
  | .yield =>
    -- lines 238-246: send the first buffer element when an output channel
    -- is wired and the buffer is non-empty; `broadcast::Sender::send` fails
    -- exactly when there is no live receiver
    match sm.output_tx, response_buffer.head? with
    | some ch, some response =>
      if ch.receivers = 0 then .error (.sendError response) else .ok none
    | _, _ => .ok none
  | .getAgentConfig _ => .ok none
  | .setAgentConfig _ => .ok none

/-- The message `Yield` hands to `output_tx.send` (line 242): present
exactly when an output channel is wired and the response buffer is
non-empty; every other action sends nothing. -/
def actionSendAttempt (sm : StateMachine) (action : Action)
    (response_buffer : List String) : Option String :=
  match action with
  | .yield =>
    match sm.output_tx, response_buffer.head? with
    | some _, some response => some response
    | _, _ => none
  | _ => none

/-! ## Result collection and the run loop -/

/-- The `flatten().flatten()` of lines 92-100: keep, in order, the payloads
of the `Ok(Some(_))` results; `Err(_)` results are logged and dropped, and
`Ok(None)` results are dropped. -/
def successOutputs (results : List (Except ActionError (Option String))) : List String :=
  results.filterMap
    (fun r => match r with
      | .ok (some s) => some s
      | _ => none)

/-- Lines 92-104: the surviving outputs are each passed through
`process_placeholders` with the *previous* buffer's first element (the
closure captures `response_buffer` before it is reassigned) and collected
into the new response buffer; the `collect::<Result<_, _>>()?`
short-circuits on the first resolver error. -/
def collect_responses (fx : Effects) (response_buffer : List String)
    (results : List (Except ActionError (Option String))) : Except ActionError (List String) :=
  (successOutputs results).mapM
    (fun result => process_placeholders_result fx.env result response_buffer.head?)

/-- The non-blocking `config_update_rx.try_recv()` check of lines 137-145:
when a replacement configuration is queued, it becomes the active
configuration and `current_state_key` is reset to its
`initial_state_key`; nothing else changes — in particular the loop's local
`next_state_key` is untouched. -/
def applyReload (sm : StateMachine) : StateMachine :=
  match sm.config_update_rx with
  | [] => sm
  | config :: rest =>
    { sm with
      config := config
      current_state_key := config.initial_state_key
      config_update_rx := rest }

/-- `StateMachine::run` (lines 72-150) as a fuel-indexed loop over
`(machine, next_state_key, response_buffer)`.  `none` means the fuel was
exhausted with the loop still running; otherwise the result is the
`Result<Vec<String>, anyhow::Error>` the source returns.  Each iteration:
look the key up (`while let` guard, exit returning the buffer when absent);
run every action of the state — `join_all` completes all of them and yields
their results in declaration order, which `joinAllResults` below relates to
arbitrary completion orders; collect the surviving outputs through the
resolver (`?`); resolve `next_state` (`?`) when present, else return the
buffer; continue when the resolved key exists, else log and return the
buffer; finally drain one queued reload, which replaces the configuration
without touching the already-resolved `next_state_key`. -/
def run (fx : Effects) : Nat → StateMachine → String → List String →
    Option (Except ActionError (List String))
  | 0, _, _, _ => none
  | fuel + 1, sm, next_state_key, response_buffer =>
    match lookupState sm.config next_state_key with
    | none => some (.ok response_buffer)
    | some state_config =>
      let results := state_config.actions.map
        (fun action => execute_action fx sm action response_buffer)
      match collect_responses fx response_buffer results with
      | .error e => some (.error e)
      | .ok buffer' =>
        match state_config.next_state with
        | none => some (.ok buffer')
        | some next_state_template =>
          match process_placeholders_result fx.env next_state_template buffer'.head? with
          | .error e => some (.error e)
          | .ok processed_next_state =>
            if (lookupState sm.config processed_next_state).isSome then
              run fx fuel (applyReload sm) processed_next_state buffer'
            else some (.ok buffer')

/-- The entry into the loop (lines 72-77): the loop variable starts as
`current_state_key` and the buffer starts empty. -/
def runMachine (fx : Effects) (fuel : Nat) (sm : StateMachine) :
    Option (Except ActionError (List String)) :=
  run fx fuel sm sm.current_state_key []

/-- The new response buffer a state produces (the `Ok` payload of
`collect_responses` — see `collect_responses_eq`): the surviving outputs in
declaration order, each resolved against the previous buffer's first
element. -/
def stateResponses (fx : Effects) (sm : StateMachine) (state_config : AgentConfig)
    (response_buffer : List String) : List String :=
  (successOutputs (state_config.actions.map
      (fun action => execute_action fx sm action response_buffer))).map
    (fun result => process_placeholders fx.env result response_buffer.head?)

/-! ## Completion-order model for `join_all`

`futures::future::join_all` polls all action futures concurrently and
returns their outputs *in the order of the input futures*, no matter in
which order the futures complete.  A completion schedule is embedded as a
list of `(declaration index, result)` pairs in completion order — any
permutation of the indexed declaration-order results — and `joinAllResults`
is the reassembly `join_all` performs: the results read back in index
order. -/

/-- Declaration-order indexing of a result list, starting at index `s`. -/
def indexed (s : Nat) : List α → List (Nat × α)
  | [] => []
  | a :: rest => (s, a) :: indexed (s + 1) rest

/-- Reassemble `count` results starting at index `start` from a completion
schedule: the list of results at indices `start, start+1, …`, or `none`
when some index is missing from the schedule. -/
def joinAllResults (completions : List (Nat × α)) : Nat → Nat → Option (List α)
  | 0, _ => some []
  | count + 1, start =>
    match assoc_lookup completions start with
    | none => none
    | some r => (joinAllResults completions count (start + 1)).map (fun rest => r :: rest)

/-! ## Basic lemmas -/

theorem assoc_lookup_mem {α β : Type} [DecidableEq α] {l : List (α × β)} {k : α} {v : β}
    (h : assoc_lookup l k = some v) : (k, v) ∈ l := by
  induction l with
  | nil => simp [assoc_lookup] at h
  | cons p rest ih =>
    obtain ⟨k', v'⟩ := p
    by_cases hk : k' = k
    · subst hk
      simp [assoc_lookup] at h
      simp [h]
    · simp [assoc_lookup, hk] at h
      exact List.mem_cons_of_mem _ (ih h)

theorem assoc_lookup_of_mem {α β : Type} [DecidableEq α] {l : List (α × β)} {k : α} {v : β}
    (hmem : (k, v) ∈ l) (hnd : (l.map Prod.fst).Nodup) : assoc_lookup l k = some v := by
  induction l with
  | nil => simp at hmem
  | cons p rest ih =>
    obtain ⟨k', v'⟩ := p
    simp only [List.map_cons, List.nodup_cons] at hnd
    rcases List.mem_cons.mp hmem with heq | htail
    · obtain ⟨hk, hv⟩ := Prod.mk.injEq .. ▸ heq
      simp [assoc_lookup, hk.symm, hv]
    · have hk : k' ≠ k := by
        intro hkk
        subst hkk
        exact hnd.1 (List.mem_map.mpr ⟨(k', v), htail, rfl⟩)
      simp [assoc_lookup, hk]
      exact ih htail hnd.2

theorem assoc_lookup_eq_none {α β : Type} [DecidableEq α] {l : List (α × β)} {k : α} :
    assoc_lookup l k = none ↔ k ∉ l.map Prod.fst := by
  induction l with
  | nil => simp [assoc_lookup]
  | cons p rest ih =>
    obtain ⟨k', v'⟩ := p
    by_cases hk : k' = k
    · subst hk
      simp [assoc_lookup]
    · simp [assoc_lookup, hk, ih, Ne.symm hk]

/-- Looking a key up in any permutation of a duplicate-key-free association
list gives the same answer. -/
theorem assoc_lookup_perm {α β : Type} [DecidableEq α] {l₁ l₂ : List (α × β)}
    (hperm : l₁.Perm l₂) (hnd : (l₁.map Prod.fst).Nodup) (k : α) :
    assoc_lookup l₁ k = assoc_lookup l₂ k := by
  have hnd₂ : (l₂.map Prod.fst).Nodup := (hperm.map Prod.fst).nodup_iff.mp hnd
  cases h₁ : assoc_lookup l₁ k with
  | some v =>
    exact (assoc_lookup_of_mem (hperm.mem_iff.mp (assoc_lookup_mem h₁)) hnd₂).symm
  | none =>
    have : k ∉ l₂.map Prod.fst := fun hmem =>
      (assoc_lookup_eq_none.mp h₁) ((hperm.map Prod.fst).mem_iff.mpr hmem)
    exact (assoc_lookup_eq_none.mpr this).symm

theorem indexed_fst_ge {α : Type} : ∀ (l : List α) (s : Nat) (p : Nat × α),
    p ∈ indexed s l → s ≤ p.1 := by
  intro l
  induction l with
  | nil => intro s p h; simp [indexed] at h
  | cons a rest ih =>
    intro s p h
    rcases List.mem_cons.mp h with heq | htail
    · subst heq; exact Nat.le_refl s
    · exact Nat.le_of_succ_le (ih (s + 1) p htail)

theorem indexed_keys_nodup {α : Type} : ∀ (l : List α) (s : Nat),
    ((indexed s l).map Prod.fst).Nodup := by
  intro l
  induction l with
  | nil => intro s; simp [indexed]
  | cons a rest ih =>
    intro s
    simp only [indexed, List.map_cons, List.nodup_cons]
    refine ⟨fun hmem => ?_, ih (s + 1)⟩
    obtain ⟨p, hp, hfst⟩ := List.mem_map.mp hmem
    have := indexed_fst_ge rest (s + 1) p hp
    omega

theorem joinAllResults_congr {α : Type} {c₁ c₂ : List (Nat × α)}
    (h : ∀ k, assoc_lookup c₁ k = assoc_lookup c₂ k) :
    ∀ (count start : Nat), joinAllResults c₁ count start = joinAllResults c₂ count start := by
  intro count
  induction count with
  | zero => intro start; rfl
  | succ n ih =>
    intro start
    simp only [joinAllResults, h start, ih (start + 1)]

theorem joinAllResults_skip {α : Type} {k : Nat} {r : α} {c : List (Nat × α)} :
    ∀ (count start : Nat), k < start →
    joinAllResults ((k, r) :: c) count start = joinAllResults c count start := by
  intro count
  induction count with
  | zero => intro start _; rfl
  | succ n ih =>
    intro start hk
    have hne : k ≠ start := Nat.ne_of_lt hk
    simp only [joinAllResults, assoc_lookup, hne, if_false,
      ih (start + 1) (Nat.lt_succ_of_lt hk)]

theorem joinAllResults_indexed {α : Type} : ∀ (l : List α) (s : Nat),
    joinAllResults (indexed s l) l.length s = some l := by
  intro l
  induction l with
  | nil => intro s; rfl
  | cons a rest ih =>
    intro s
    have h1 : assoc_lookup ((s, a) :: indexed (s + 1) rest) s = some a := by
      simp [assoc_lookup]
    simp only [indexed, List.length_cons, joinAllResults, h1]
    rw [joinAllResults_skip rest.length (s + 1) (Nat.lt_succ_self s), ih (s + 1)]
    rfl

/-- `join_all` returns the declaration-order results for *every* completion
schedule: reassembling any permutation of the indexed results yields the
original declaration-order list. -/
theorem joinAllResults_perm {α : Type} {results : List α} {completions : List (Nat × α)}
    (hperm : completions.Perm (indexed 0 results)) :
    joinAllResults completions results.length 0 = some results := by
  have hlk : ∀ k, assoc_lookup completions k = assoc_lookup (indexed 0 results) k := by
    intro k
    exact assoc_lookup_perm hperm
      ((hperm.map Prod.fst).nodup_iff.mpr (indexed_keys_nodup results 0)) k
  rw [joinAllResults_congr hlk results.length 0, joinAllResults_indexed]

theorem mapM_ok {α β : Type} (g : α → β) :
    ∀ l : List α, (l.mapM (fun s => (Except.ok (g s) : Except ActionError β)))
      = .ok (l.map g) := by
  intro l
  induction l with
  | nil => rfl
  | cons a rest ih =>
    rw [List.mapM_cons, ih]
    rfl

/-- `collect_responses` never fails: the resolver wrapper is always `Ok`,
so the `collect::<Result<_, _>>()?` at line 104 always succeeds, producing
the surviving outputs resolved in declaration order. -/
theorem collect_responses_eq (fx : Effects) (response_buffer : List String)
    (results : List (Except ActionError (Option String))) :
    collect_responses fx response_buffer results
      = .ok ((successOutputs results).map
          (fun result => process_placeholders fx.env result response_buffer.head?)) := by
  unfold collect_responses process_placeholders_result
  exact mapM_ok _ _

/-- A failed action contributes nothing to the collected outputs. -/
theorem successOutputs_drop_error (l₁ l₂ : List (Except ActionError (Option String)))
    (e : ActionError) :
    successOutputs (l₁ ++ .error e :: l₂) = successOutputs (l₁ ++ l₂) := by
  unfold successOutputs
  rw [List.filterMap_append, List.filterMap_append, List.filterMap_cons]

/-- An action that completed without output contributes nothing either. -/
theorem successOutputs_drop_none (l₁ l₂ : List (Except ActionError (Option String))) :
    successOutputs (l₁ ++ .ok none :: l₂) = successOutputs (l₁ ++ l₂) := by
  unfold successOutputs
  rw [List.filterMap_append, List.filterMap_append, List.filterMap_cons]

/-- A string without `{` passes through the scan unchanged. -/
theorem replaceCore_no_brace (repl : List Char → List Char) :
    ∀ l : List Char, '{' ∉ l → replaceCore repl l none = l := by
  intro l
  induction l with
  | nil => intro _; rfl
  | cons c rest ih =>
    intro h
    have hc : ¬ c = '{' := fun hc => h (hc ▸ List.mem_cons_self c rest)
    have hrest : '{' ∉ rest := fun hr => h (List.mem_cons_of_mem c hr)
    simp only [replaceCore, if_neg hc, ih hrest]

theorem replaceCore_pend (repl : List Char → List Char) (rest : List Char) :
    ∀ (cap pend : List Char), '}' ∉ cap → pend.reverse ++ cap ≠ [] →
    replaceCore repl (cap ++ '}' :: rest) (some pend)
      = repl (pend.reverse ++ cap) ++ replaceCore repl rest none := by
  intro cap
  induction cap with
  | nil =>
    intro pend _ hne
    have hpe : pend.isEmpty = false := by
      cases pend with
      | nil => simp at hne
      | cons x xs => rfl
    simp [replaceCore, hpe]
  | cons c cs ih =>
    intro pend hmem hne
    have hc : ¬ c = '}' := fun hc => hmem (hc ▸ List.mem_cons_self c cs)
    have hcs : '}' ∉ cs := fun hr => hmem (List.mem_cons_of_mem c hr)
    have hne' : (c :: pend).reverse ++ cs ≠ [] := by
      simp [List.reverse_cons]
    simp only [List.cons_append, replaceCore, if_neg hc, List.append_eq]
    rw [ih (c :: pend) hcs hne']
    simp [List.reverse_cons, List.append_assoc]

/-- One complete marker `{cap}` (with non-empty, `}`-free capture) is
replaced by `repl cap`, and scanning resumes after the closing brace. -/
theorem replaceCore_marker (repl : List Char → List Char) (cap rest : List Char)
    (hne : cap ≠ []) (hmem : '}' ∉ cap) :
    replaceCore repl ('{' :: cap ++ '}' :: rest) none
      = repl cap ++ replaceCore repl rest none := by
  have : replaceCore repl ('{' :: (cap ++ '}' :: rest)) none
      = replaceCore repl (cap ++ '}' :: rest) (some []) := by
    simp [replaceCore]
  rw [List.cons_append, this, replaceCore_pend repl rest cap [] hmem (by simpa using hne)]
  rfl

/-- `run` can only yield `Ok` or run out of fuel: the per-action errors are
absorbed by the `flatten`s and both `?` sites always receive `Ok`. -/
theorem run_ne_error (fx : Effects) :
    ∀ (fuel : Nat) (sm : StateMachine) (key : String) (buf : List String) (e : ActionError),
    run fx fuel sm key buf ≠ some (.error e) := by
  intro fuel
  induction fuel with
  | zero => intro sm key buf e h; simp [run] at h
  | succ n ih =>
    intro sm key buf e h
    rw [run] at h
    cases hlk : lookupState sm.config key with
    | none => rw [hlk] at h; simp at h
    | some state_config =>
      rw [hlk] at h
      simp only [collect_responses_eq] at h
      cases hns : state_config.next_state with
      | none => rw [hns] at h; simp at h
      | some tmpl =>
        rw [hns] at h
        simp only [process_placeholders_result] at h
        by_cases hmem : (lookupState sm.config
            (process_placeholders fx.env tmpl
              (((successOutputs (state_config.actions.map
                (fun action => execute_action fx sm action buf))).map
                  (fun result => process_placeholders fx.env result buf.head?)).head?))).isSome
        · rw [if_pos hmem] at h
          exact ih _ _ _ e h
        · rw [if_neg hmem] at h
          simp at h

/-- Bridge between the collection step of the loop and `stateResponses`. -/
theorem collect_responses_state (fx : Effects) (sm : StateMachine)
    (state_config : AgentConfig) (buf : List String) :
    collect_responses fx buf
        (state_config.actions.map (fun action => execute_action fx sm action buf))
      = .ok (stateResponses fx sm state_config buf) := by
  rw [collect_responses_eq]
  rfl

/-- If no output contains a `{`, resolution is the identity. -/
theorem process_placeholders_no_brace (env : EnvMap) (s : String) (ctx : Option String)
    (h : '{' ∉ s.data) : process_placeholders env s ctx = s := by
  unfold process_placeholders
  rw [replaceCore_no_brace _ _ h]

/-! ## Claim C1 -/

/-- C1: the spec claims `{input}` / `{output}` resolve to the supplied
context value and `{env:NAME}` to environment variable `NAME`.  The code
does neither: `#[serde(untagged)]` makes the unit variants `Input`/`Output`
match only JSON null, so every marker text deserializes into `Env(text)`
and is looked up as an environment variable under the *whole* marker text.
Evaluating the embedded resolver at the spec's own round-trip inputs:
`{input}` with context "world" gives "" (the variable named `input` being
unset), `{env:FOO}` with `FOO=bar` gives "" (the lookup key is the literal
string `env:FOO`, not `FOO`), and setting a variable literally named
`env:FOO` is what actually surfaces — the dead `Input`/`Output` match arms
(lines 292-299, with their explanatory comments) show the intended
behaviour the spec describes, so this is a defect of the code. -/
theorem c1_placeholder_dialect_code_bug :
    process_placeholders (fun _ => none) "{input}" (some "world") = "" ∧
    process_placeholders (fun _ => none) "{output}" (some "world") = "" ∧
    process_placeholders (fun v => if v = "FOO" then some "bar" else none)
      "{env:FOO}" (some "ctx") = "" ∧
    process_placeholders (fun v => if v = "env:FOO" then some "bar" else none)
      "{env:FOO}" none = "bar" ∧
    process_placeholders (fun v => if v = "input" then some "world" else none)
      "{input}" none = "world" := by
  refine ⟨?_, ?_, ?_, ?_, ?_⟩ <;> rfl

/-! ## Claim C2 -/

/-- C2 counterexample: the claim says every marker whose inner text is not
a recognized dialect keyword is replaced by the empty string; but `{bogus}`
deserializes as `Env("bogus")`, so when an environment variable named
`bogus` is set the marker resolves to its value, not to `""`. -/
theorem c2_unknown_marker_counterexample :
    process_placeholders (fun v => if v = "bogus" then some "surprise" else none)
      "{bogus}" (some "ctx") ≠ "" := by
  decide

/-- C2 amended: a marker is logged as invalid and replaced by the empty
string only when its inner text fails to parse as a JSON string (a raw `"`,
raw control character, or bad escape); this never aborts resolution of the
rest of the string.  Every marker text that does parse — `bogus` included —
is treated as an environment-variable name, substituting the variable's
value, or the empty string when it is unset; so `resolve("{bogus}", ctx)`
yields `""` exactly when no variable named `bogus` is set, and no error is
ever raised (the replacement closure returns a plain string in both
cases). -/
theorem c2_unknown_marker_amended (env : EnvMap) (ctx : Option String)
    (hbogus : env "bogus" = none) :
    process_placeholders env "{bogus}" ctx = "" ∧
    (∀ env2 : EnvMap, process_placeholders env2 "{bogus}" ctx = (env2 "bogus").getD "") ∧
    (∀ cap rest : List Char, cap ≠ [] → '}' ∉ cap → jsonStringParse cap = none →
      replaceCore (substMarker env ctx) ('{' :: cap ++ '}' :: rest) none
        = replaceCore (substMarker env ctx) rest none) := by
  have hsubst : ∀ env2 : EnvMap, substMarker env2 ctx ('b' :: 'o' :: 'g' :: 'u' :: 's' :: [])
      = ((env2 "bogus").getD "").data := fun _ => rfl
  have hdata : "{bogus}".data
      = '{' :: ('b' :: 'o' :: 'g' :: 'u' :: 's' :: []) ++ '}' :: [] := rfl
  refine ⟨?_, ?_, ?_⟩
  · show String.mk (replaceCore (substMarker env ctx) "{bogus}".data none) = ""
    rw [hdata, replaceCore_marker _ _ _ (by decide) (by decide), hsubst env, hbogus]
    rfl
  · intro env2
    show String.mk (replaceCore (substMarker env2 ctx) "{bogus}".data none)
        = (env2 "bogus").getD ""
    rw [hdata, replaceCore_marker _ _ _ (by decide) (by decide), hsubst env2]
    show String.mk (((env2 "bogus").getD "").data ++ []) = (env2 "bogus").getD ""
    rw [List.append_nil]
  · intro cap rest hne hmem hjson
    rw [replaceCore_marker _ _ _ hne hmem,
      show substMarker env ctx cap = [] from by simp [substMarker, parsePlaceholder, hjson]]
    rfl

/-- Witness for C2 (amended): with an environment in which `bogus` is
unset, `resolve("{bogus}", ctx)` concretely yields `""`, an invalid-JSON
marker is dropped while the rest of the string still resolves, and a
parseable marker tracks the environment. -/
theorem c2_unknown_marker_amended_witness :
    process_placeholders (fun _ => none) "{bogus}" (some "ctx") = "" ∧
    replaceCore (substMarker (fun _ => none) (some "ctx"))
        ('{' :: ('a' :: '"' :: 'b' :: []) ++ '}' :: ('o' :: 'k' :: [])) none
      = replaceCore (substMarker (fun _ => none) (some "ctx")) ('o' :: 'k' :: []) none := by
  refine ⟨(c2_unknown_marker_amended (fun _ => none) (some "ctx") rfl).1, ?_⟩
  exact (c2_unknown_marker_amended (fun _ => none) (some "ctx") rfl).2.2
    ('a' :: '"' :: 'b' :: []) ('o' :: 'k' :: []) (by decide) (by decide) (by decide)

/-! ## Claim C3 -/

/-- A `CallApi` payload used by the concrete fixtures. -/
def fixtureApi : CallApiData :=
  { url := "http://example.invalid"
    auth_header_name := "authorization"
    auth_header_value := "token"
    method := .get
    body := none }

/-- One-state configuration whose single action is a `CallApi`. -/
def c3Config : Config :=
  .mk "test" "start" [("start", .mk [.callApi fixtureApi] none)] none

/-- Oracles for the C3 counterexample: the transport answers with a body
that contains a placeholder marker. -/
def c3Fx : Effects :=
  { env := fun _ => none
    api := fun _ => .ok "a{input}b"
    load_config_from_path := fun p => .error (.configLoad p)
    childRun := fun _ _ _ => .error (.childFailed "unused")
    inputEvent := .timedOut }

/-- C3 counterexample: the claim says the response-context is *exactly* the
outputs of the completing actions.  Here the single action completes with
output `"a{input}b"`, yet the state's response-context is `["ab"]`: each
output is passed through the placeholder resolver before being stored (and
under the untagged parse, `{input}` is an environment lookup that yields
`""`), so the context is not the raw output list. -/
theorem c3_result_ordering_counterexample :
    runMachine c3Fx 1 (StateMachine.new c3Config) = some (.ok ["ab"]) ∧
    ("ab" : String) ≠ "a{input}b" := by
  refine ⟨rfl, by decide⟩

/-- C3 amended: for a state with `N` actions of which a subset `S` (in
declaration order) complete with an output, the response-context is exactly
the outputs of `S` in the actions' original declaration order, *each passed
through the placeholder resolver with the previous context's first element
as substitution value* — verbatim whenever the outputs contain no marker —
independent of the order in which the concurrently launched actions
complete; failed actions and actions completing with no output contribute
nothing.  The completion schedule is any permutation of the indexed
declaration-order results, and `joinAllResults` (the reassembly `join_all`
performs) recovers the declaration order from every such schedule. -/
theorem c3_result_ordering (fx : Effects) (sm : StateMachine)
    (state_config : AgentConfig) (buf : List String)
    (results : List (Except ActionError (Option String)))
    (completions : List (Nat × Except ActionError (Option String)))
    (hres : results = state_config.actions.map (fun a => execute_action fx sm a buf))
    (hperm : completions.Perm (indexed 0 results)) :
    joinAllResults completions results.length 0 = some results ∧
    collect_responses fx buf results = .ok (stateResponses fx sm state_config buf) ∧
    (∀ l₁ l₂ e, successOutputs (l₁ ++ .error e :: l₂) = successOutputs (l₁ ++ l₂)) ∧
    (∀ l₁ l₂, successOutputs (l₁ ++ .ok none :: l₂) = successOutputs (l₁ ++ l₂)) ∧
    ((∀ s ∈ successOutputs results, '{' ∉ s.data) →
      stateResponses fx sm state_config buf = successOutputs results) := by
  refine ⟨joinAllResults_perm hperm, ?_, successOutputs_drop_error, successOutputs_drop_none, ?_⟩
  · rw [hres, collect_responses_state]
  · intro hnb
    have : stateResponses fx sm state_config buf
        = (successOutputs results).map (fun r => process_placeholders fx.env r buf.head?) := by
      rw [hres]; rfl
    rw [this, List.map_congr_left (fun s hs => process_placeholders_no_brace _ s _ (hnb s hs))]
    simp

/-- Two-action state for the C3 witness: the first action's transport
output is `"hello"`, the second (`WaitForInput` with no channel wired)
completes with no output. -/
def c3wStateConfig : AgentConfig := .mk [.callApi fixtureApi, .waitForInput] none

/-- Oracles for the C3 witness. -/
def c3wFx : Effects :=
  { env := fun _ => none
    api := fun _ => .ok "hello"
    load_config_from_path := fun p => .error (.configLoad p)
    childRun := fun _ _ _ => .error (.childFailed "unused")
    inputEvent := .timedOut }

/-- Machine for the C3 witness (no channels wired). -/
def c3wSm : StateMachine := StateMachine.new (.mk "w" "start" [] none)

/-- Witness for C3 (amended), at a completion schedule that is a genuine
reordering (the second action completes first): reassembly still yields the
declaration-order results, and the marker-free output survives verbatim as
the whole response-context. -/
theorem c3_result_ordering_witness :
    joinAllResults
        ([(1, Except.ok none), (0, Except.ok (some "hello"))]
          : List (Nat × Except ActionError (Option String)))
        ([Except.ok (some "hello"), Except.ok none]
          : List (Except ActionError (Option String))).length 0
      = some [Except.ok (some "hello"), Except.ok none] ∧
    stateResponses c3wFx c3wSm c3wStateConfig [] = ["hello"] := by
  have h := c3_result_ordering c3wFx c3wSm c3wStateConfig []
    [Except.ok (some "hello"), Except.ok none]
    [(1, Except.ok none), (0, Except.ok (some "hello"))]
    rfl (List.Perm.swap _ _ _)
  refine ⟨h.1, ?_⟩
  rw [h.2.2.2.2 (by decide)]
  rfl

/-! ## Claim C4 -/

/-- C4: per-action errors never abort the run.  A `SpawnAgent` whose child
configuration fails to load, or whose spawned task fails or panics, reports
the error as that action's result; at the collection boundary every errored
action is logged and contributes nothing; and the loop itself can only
return `Ok` (or keep running): the two `?` sites both wrap the total
resolver, so no abort path remains after construction. -/
theorem c4_per_action_errors_absorbed :
    (∀ (fx : Effects) (fuel : Nat) (sm : StateMachine) (key : String)
        (buf : List String) (e : ActionError),
      run fx fuel sm key buf ≠ some (.error e)) ∧
    (∀ (fx : Effects) (sm : StateMachine) (buf : List String)
        (agent_data : AgentData) (path : String) (e : ActionError),
      agent_data.config_source = .file path →
      fx.load_config_from_path path = .error e →
      execute_action fx sm (.spawnAgent agent_data) buf = .error e) ∧
    (∀ (fx : Effects) (sm : StateMachine) (buf : List String)
        (agent_data : AgentData) (cfg : Config) (e : ActionError),
      agent_data.config_source = .inline cfg →
      fx.childRun cfg (assoc_lookup sm.streams_map agent_data.input_label)
          (assoc_lookup sm.streams_map agent_data.output_label) = .error e →
      execute_action fx sm (.spawnAgent agent_data) buf = .error e) ∧
    (∀ (fx : Effects) (buf : List String)
        (l₁ l₂ : List (Except ActionError (Option String))) (e : ActionError),
      collect_responses fx buf (l₁ ++ .error e :: l₂) = collect_responses fx buf (l₁ ++ l₂)) := by
  refine ⟨run_ne_error, ?_, ?_, ?_⟩
  · intro fx sm buf agent_data path e h1 h2
    simp [execute_action, h1, h2]
  · intro fx sm buf agent_data cfg e h1 h2
    simp [execute_action, h1, h2, Except.map]
  · intro fx buf l₁ l₂ e
    rw [collect_responses_eq, collect_responses_eq, successOutputs_drop_error]

/-- Spawn payload whose child configuration comes from a file. -/
def c4wAgentData : AgentData :=
  .mk (.file "missing.json") "child" false "in" "out"

/-- Oracles for the C4 witness: the child configuration file fails to
load. -/
def c4wFx : Effects :=
  { env := fun _ => none
    api := fun _ => .error (.transport "down")
    load_config_from_path := fun p => .error (.configLoad p)
    childRun := fun _ _ _ => .error (.childFailed "unused")
    inputEvent := .timedOut }

/-- Configuration whose one state spawns the failing child and then
stops. -/
def c4wConfig : Config :=
  .mk "parent" "start" [("start", .mk [.spawnAgent c4wAgentData] none)] none

/-- Witness for C4: the failing spawn is this action's error, an errored
action drops out of the collection, and the concrete parent run still
returns `Ok` (here: an empty context, the only action having failed). -/
theorem c4_per_action_errors_absorbed_witness :
    execute_action c4wFx (StateMachine.new c4wConfig) (.spawnAgent c4wAgentData) []
      = .error (.configLoad "missing.json") ∧
    collect_responses c4wFx []
        ([] ++ Except.error (.configLoad "missing.json") :: [])
      = collect_responses c4wFx [] ([] ++ []) ∧
    run c4wFx 1 (StateMachine.new c4wConfig) "start" [] ≠ some (.error (.configLoad "missing.json")) := by
  refine ⟨?_, ?_, ?_⟩
  · exact c4_per_action_errors_absorbed.2.1 c4wFx (StateMachine.new c4wConfig) []
      c4wAgentData "missing.json" (.configLoad "missing.json") rfl rfl
  · exact c4_per_action_errors_absorbed.2.2.2 c4wFx [] [] [] (.configLoad "missing.json")
  · exact c4_per_action_errors_absorbed.1 c4wFx 1 (StateMachine.new c4wConfig) "start" []
      (.configLoad "missing.json")

/-! ## Claim C5 -/

/-- C5: a configuration whose `initial_state_key` is not a state key makes
the run terminate immediately with an empty `Ok` result; and a state whose
resolved next-state key is absent from `states` makes the run stop with an
`Ok` carrying the response-context of the state just completed — neither is
an error return. -/
theorem c5_missing_keys_graceful :
    (∀ (fx : Effects) (config : Config) (fuel : Nat),
      lookupState config config.initial_state_key = none →
      runMachine fx (fuel + 1) (StateMachine.new config) = some (.ok [])) ∧
    (∀ (fx : Effects) (sm : StateMachine) (key : String) (buf : List String)
        (state_config : AgentConfig) (tmpl : String) (fuel : Nat),
      lookupState sm.config key = some state_config →
      state_config.next_state = some tmpl →
      lookupState sm.config
          (process_placeholders fx.env tmpl (stateResponses fx sm state_config buf).head?)
        = none →
      run fx (fuel + 1) sm key buf = some (.ok (stateResponses fx sm state_config buf))) := by
  constructor
  · intro fx config fuel h
    show run fx (fuel + 1) (StateMachine.new config) config.initial_state_key []
        = some (.ok [])
    rw [run]
    have : lookupState (StateMachine.new config).config config.initial_state_key = none := h
    rw [this]
  · intro fx sm key buf state_config tmpl fuel h1 h2 h3
    rw [run, h1]
    simp only [collect_responses_state, h2, process_placeholders_result, h3]
    rfl

/-- Configuration for the first C5 witness: `initial_state_key` names no
state. -/
def c5wConfig1 : Config := .mk "w" "missing" [("start", .mk [] none)] none

/-- Configuration for the second C5 witness: the next-state template
resolves to a key that names no state. -/
def c5wConfig2 : Config := .mk "w" "start" [("start", .mk [] (some "elsewhere"))] none

/-- Oracles for the C5 witness. -/
def c5wFx : Effects :=
  { env := fun _ => none
    api := fun _ => .error (.transport "down")
    load_config_from_path := fun p => .error (.configLoad p)
    childRun := fun _ _ _ => .error (.childFailed "unused")
    inputEvent := .timedOut }

/-- Witness for C5: both graceful-stop behaviours at concrete
configurations. -/
theorem c5_missing_keys_graceful_witness :
    runMachine c5wFx 1 (StateMachine.new c5wConfig1) = some (.ok []) ∧
    run c5wFx 1 (StateMachine.new c5wConfig2) "start" []
      = some (.ok (stateResponses c5wFx (StateMachine.new c5wConfig2)
          (.mk [] (some "elsewhere")) [])) := by
  refine ⟨c5_missing_keys_graceful.1 c5wFx c5wConfig1 0 rfl, ?_⟩
  exact c5_missing_keys_graceful.2 c5wFx (StateMachine.new c5wConfig2) "start" []
    (.mk [] (some "elsewhere")) "elsewhere" 0 rfl rfl rfl

/-! ## Claim C6 -/

/-- C6: `WaitForInput` makes exactly one receive attempt, bounded by the
fixed 10-second deadline, and never reports an error: no wired inbound
channel gives `None` immediately; a received message is the action's
result; a closed channel, a lagged subscription (the lag count only being
logged), and deadline expiry each give `None`.  There is no retry — the
dispatch consults the single receive outcome once. -/
theorem c6_wait_for_input (fx : Effects) (sm : StateMachine) (buf : List String) :
    (sm.input_rx = none → execute_action fx sm .waitForInput buf = .ok none) ∧
    (∀ (ch : BroadcastChannel) (msg : String), sm.input_rx = some ch →
      fx.inputEvent = .received msg →
      execute_action fx sm .waitForInput buf = .ok (some msg)) ∧
    (∀ ch : BroadcastChannel, sm.input_rx = some ch → fx.inputEvent = .closed →
      execute_action fx sm .waitForInput buf = .ok none) ∧
    (∀ (ch : BroadcastChannel) (n : Nat), sm.input_rx = some ch →
      fx.inputEvent = .lagged n →
      execute_action fx sm .waitForInput buf = .ok none) ∧
    (∀ ch : BroadcastChannel, sm.input_rx = some ch → fx.inputEvent = .timedOut →
      execute_action fx sm .waitForInput buf = .ok none) ∧
    (∃ v, execute_action fx sm .waitForInput buf = .ok v) ∧
    waitForInputTimeoutSecs = 10 := by
  refine ⟨?_, ?_, ?_, ?_, ?_, ?_, rfl⟩
  · intro h; simp [execute_action, h]
  · intro ch msg h1 h2; simp [execute_action, h1, h2]
  · intro ch h1 h2; simp [execute_action, h1, h2]
  · intro ch n h1 h2; simp [execute_action, h1, h2]
  · intro ch h1 h2; simp [execute_action, h1, h2]
  · cases h : sm.input_rx with
    | none => exact ⟨none, by simp [execute_action, h]⟩
    | some ch =>
      cases he : fx.inputEvent with
      | received msg => exact ⟨some msg, by simp [execute_action, h, he]⟩
      | closed => exact ⟨none, by simp [execute_action, h, he]⟩
      | lagged n => exact ⟨none, by simp [execute_action, h, he]⟩
      | timedOut => exact ⟨none, by simp [execute_action, h, he]⟩

/-- A machine with a wired inbound channel, for the C6 witness. -/
def c6wSm : StateMachine :=
  { StateMachine.new (.mk "w" "start" [] none) with
    input_rx := some { capacity := 100, receivers := 1 } }

/-- Oracles for the C6 witness: the receive attempt yields a message. -/
def c6wFx : Effects :=
  { env := fun _ => none
    api := fun _ => .error (.transport "down")
    load_config_from_path := fun p => .error (.configLoad p)
    childRun := fun _ _ _ => .error (.childFailed "unused")
    inputEvent := .received "ping" }

/-- Oracles for the C6 witness, timeout case. -/
def c6wFxTimeout : Effects := { c6wFx with inputEvent := .timedOut }

/-- Witness for C6: the received message is returned on a wired channel, a
missing channel returns `None`, and a timeout returns `None`. -/
theorem c6_wait_for_input_witness :
    execute_action c6wFx c6wSm .waitForInput [] = .ok (some "ping") ∧
    execute_action c6wFx (StateMachine.new (.mk "w" "start" [] none)) .waitForInput []
      = .ok none ∧
    execute_action c6wFxTimeout c6wSm .waitForInput [] = .ok none := by
  refine ⟨?_, ?_, ?_⟩
  · exact (c6_wait_for_input c6wFx c6wSm []).2.1 { capacity := 100, receivers := 1 }
      "ping" rfl rfl
  · exact (c6_wait_for_input c6wFx (StateMachine.new (.mk "w" "start" [] none)) []).1 rfl
  · exact (c6_wait_for_input c6wFxTimeout c6wSm []).2.2.2.2.1
      { capacity := 100, receivers := 1 } rfl rfl

/-! ## Claim C7 -/

theorem build_fold_lookup (l : String) :
    ∀ (labels : List String) (m : List (String × BroadcastChannel)),
    assoc_lookup
        (labels.foldl (fun m lab => (lab, freshChannel100) :: m) m) l
      = if l ∈ labels then some freshChannel100 else assoc_lookup m l := by
  intro labels
  induction labels with
  | nil => intro m; simp
  | cons lab rest ih =>
    intro m
    rw [List.foldl_cons, ih ((lab, freshChannel100) :: m)]
    by_cases hl : l ∈ rest
    · simp [hl, List.mem_cons]
    · by_cases he : lab = l
      · simp [hl, he, assoc_lookup]
      · simp [hl, he, assoc_lookup, List.mem_cons, Ne.symm he]

/-- The registry holds a capacity-100 channel exactly at the declared spawn
output labels. -/
theorem build_streams_map_lookup (config : Config) (l : String) :
    assoc_lookup (build_streams_map config) l
      = if l ∈ spawnOutputLabels config then some freshChannel100 else none := by
  unfold build_streams_map
  rw [build_fold_lookup l (spawnOutputLabels config) []]
  rfl

/-- C7: `StateMachine::new` eagerly populates the registry with one
capacity-100 broadcast channel per distinct `output_label` of any
`SpawnAgent` action in any state of the root configuration; a label no
spawn action declares has no channel, so the `streams_map.get` lookups a
`SpawnAgent` performs for its `input_label` / `output_label` return `none`
for undeclared labels (no subscription, no publisher handle).  Nothing in
`run` or `execute_action` ever inserts into `streams_map` afterwards (both
take the machine immutably), so no channel is created lazily. -/
theorem c7_channel_registry (config : Config) :
    ((StateMachine.new config).streams_map = build_streams_map config) ∧
    (∀ l, (assoc_lookup (build_streams_map config) l).isSome
      ↔ l ∈ spawnOutputLabels config) ∧
    (∀ l ch, assoc_lookup (build_streams_map config) l = some ch
      → ch = freshChannel100 ∧ ch.capacity = 100) ∧
    (∀ agent_data : AgentData, agent_data.input_label ∉ spawnOutputLabels config →
      assoc_lookup (StateMachine.new config).streams_map agent_data.input_label = none) ∧
    (∀ agent_data : AgentData, agent_data.output_label ∉ spawnOutputLabels config →
      assoc_lookup (StateMachine.new config).streams_map agent_data.output_label = none) := by
  refine ⟨rfl, ?_, ?_, ?_, ?_⟩
  · intro l
    rw [build_streams_map_lookup]
    by_cases h : l ∈ spawnOutputLabels config <;> simp [h]
  · intro l ch h
    rw [build_streams_map_lookup] at h
    by_cases hm : l ∈ spawnOutputLabels config
    · rw [if_pos hm] at h
      cases h
      exact ⟨rfl, rfl⟩
    · rw [if_neg hm] at h
      cases h
  · intro agent_data h
    show assoc_lookup (build_streams_map config) agent_data.input_label = none
    rw [build_streams_map_lookup, if_neg h]
  · intro agent_data h
    show assoc_lookup (build_streams_map config) agent_data.output_label = none
    rw [build_streams_map_lookup, if_neg h]

/-- Configuration for the C7 witness: two states, one spawning to label
`out`. -/
def c7wConfig : Config :=
  .mk "root" "start"
    [("start", .mk [.spawnAgent (.mk (.file "child.json") "c" false "in" "out")] none),
     ("idle", .mk [] none)]
    none

/-- Witness for C7: the declared label `out` has a capacity-100 channel;
the undeclared labels `in` and `nope` have none. -/
theorem c7_channel_registry_witness :
    (assoc_lookup (build_streams_map c7wConfig) "out").isSome ∧
    (∀ ch, assoc_lookup (build_streams_map c7wConfig) "out" = some ch → ch.capacity = 100) ∧
    assoc_lookup (StateMachine.new c7wConfig).streams_map "in" = none ∧
    assoc_lookup (StateMachine.new c7wConfig).streams_map "nope" = none := by
  refine ⟨?_, ?_, ?_, ?_⟩
  · exact ((c7_channel_registry c7wConfig).2.1 "out").mpr (by decide)
  · intro ch h
    exact ((c7_channel_registry c7wConfig).2.2.1 "out" ch h).2
  · exact (c7_channel_registry c7wConfig).2.2.2.1
      (.mk (.file "x") "c" false "in" "nobody") (by decide)
  · exact (c7_channel_registry c7wConfig).2.2.2.2
      (.mk (.file "x") "c" false "whatever" "nope") (by decide)

/-! ## Claim C8 -/

/-- C8: when a state completes and its resolved next-state key is found,
the engine drains one queued reload: the active configuration is replaced
and the *instance's* `current_state_key` is reset to the new
configuration's `initial_state_key`, while the loop's in-flight
`next_state_key` keeps the value just resolved — the next iteration looks
that same key up in the *new* configuration's state map (visible in the
right-hand side: `run` continues on the updated machine with the unchanged
`nk`).  (When the state's resolution terminates the run instead, the loop
breaks before the reload check — the check happens only on the continue
path, lines 137-145.) -/
theorem c8_reload_swap (fx : Effects) (sm : StateMachine) (key : String)
    (buf : List String) (state_config : AgentConfig) (tmpl nk : String)
    (newConfig : Config) (rest : List Config) (fuel : Nat)
    (h1 : lookupState sm.config key = some state_config)
    (h2 : state_config.next_state = some tmpl)
    (h3 : process_placeholders fx.env tmpl (stateResponses fx sm state_config buf).head? = nk)
    (h4 : (lookupState sm.config nk).isSome = true)
    (h5 : sm.config_update_rx = newConfig :: rest) :
    applyReload sm
      = { sm with
          config := newConfig
          current_state_key := newConfig.initial_state_key
          config_update_rx := rest } ∧
    run fx (fuel + 1) sm key buf
      = run fx fuel
          { sm with
            config := newConfig
            current_state_key := newConfig.initial_state_key
            config_update_rx := rest }
          nk (stateResponses fx sm state_config buf) := by
  have hreload : applyReload sm
      = { sm with
          config := newConfig
          current_state_key := newConfig.initial_state_key
          config_update_rx := rest } := by
    unfold applyReload
    rw [h5]
  refine ⟨hreload, ?_⟩
  rw [run, h1]
  simp only [collect_responses_state, h2, process_placeholders_result, h3, if_pos h4, hreload]

/-- Replacement configuration for the C8 witness. -/
def c8wNewConfig : Config := .mk "v2" "fresh" [("fresh", .mk [] none)] none

/-- Machine for the C8 witness: two states and one queued reload. -/
def c8wSm : StateMachine :=
  { StateMachine.new
      (.mk "v1" "start"
        [("start", .mk [] (some "next")), ("next", .mk [] none)] none) with
    config_update_rx := [c8wNewConfig] }

/-- Oracles for the C8 witness (no action ever consults them: both states
have empty action lists). -/
def c8wFxDummy : Effects :=
  { env := fun _ => none
    api := fun _ => .error (.transport "down")
    load_config_from_path := fun p => .error (.configLoad p)
    childRun := fun _ _ _ => .error (.childFailed "unused")
    inputEvent := .timedOut }

/-- Witness for C8 at a concrete machine: the reload swaps the
configuration and resets `current_state_key` to `fresh`, while the loop
continues at the already-resolved key `next` against the new
configuration. -/
theorem c8_reload_swap_witness :
    applyReload c8wSm
      = { c8wSm with
          config := c8wNewConfig
          current_state_key := "fresh"
          config_update_rx := [] } ∧
    run c8wFxDummy 2 c8wSm "start" []
      = run c8wFxDummy 1
          { c8wSm with
            config := c8wNewConfig
            current_state_key := "fresh"
            config_update_rx := [] }
          "next" (stateResponses c8wFxDummy c8wSm (.mk [] (some "next")) []) :=
  c8_reload_swap c8wFxDummy c8wSm "start" [] (.mk [] (some "next")) "next" "next"
    c8wNewConfig [] 1 rfl rfl rfl rfl rfl

/-! ## Claim C9 -/

/-- C9: `Yield` is dispatched by the engine although the spec's action
union omits it.  On success it returns `Ok(None)`; it hands the first
element of the current response-context to the output channel's `send`
exactly when an output channel is wired and the context is non-empty; a
failing `send` (no live receiver) is this action's error; with no channel
or an empty context it is a pure no-op. -/
theorem c9_yield_semantics (fx : Effects) (sm : StateMachine) (buf : List String) :
    (∀ (ch : BroadcastChannel) (msg : String), sm.output_tx = some ch →
      buf.head? = some msg → ch.receivers ≠ 0 →
      execute_action fx sm .yield buf = .ok none ∧
      actionSendAttempt sm .yield buf = some msg) ∧
    (∀ (ch : BroadcastChannel) (msg : String), sm.output_tx = some ch →
      buf.head? = some msg → ch.receivers = 0 →
      execute_action fx sm .yield buf = .error (.sendError msg) ∧
      actionSendAttempt sm .yield buf = some msg) ∧
    (sm.output_tx = none →
      execute_action fx sm .yield buf = .ok none ∧
      actionSendAttempt sm .yield buf = none) ∧
    (buf.head? = none →
      execute_action fx sm .yield buf = .ok none ∧
      actionSendAttempt sm .yield buf = none) := by
  refine ⟨?_, ?_, ?_, ?_⟩
  · intro ch msg h1 h2 h3
    constructor <;> simp [execute_action, actionSendAttempt, h1, h2, h3]
  · intro ch msg h1 h2 h3
    constructor <;> simp [execute_action, actionSendAttempt, h1, h2, h3]
  · intro h1
    constructor <;> simp [execute_action, actionSendAttempt, h1]
  · intro h1
    cases h2 : sm.output_tx with
    | none => constructor <;> simp [execute_action, actionSendAttempt, h1, h2]
    | some ch => constructor <;> simp [execute_action, actionSendAttempt, h1, h2]

/-- Machine for the C9 witness: output channel wired, one live
receiver. -/
def c9wSm : StateMachine :=
  { StateMachine.new (.mk "w" "start" [] none) with
    output_tx := some { capacity := 100, receivers := 1 } }

/-- Machine for the C9 witness, no-receiver case. -/
def c9wSmNoRx : StateMachine :=
  { StateMachine.new (.mk "w" "start" [] none) with
    output_tx := some { capacity := 100, receivers := 0 } }

/-- Witness for C9: the successful send returns `Ok(None)` and publishes
the first context element; the receiver-less send is the action's error;
the empty context is a no-op. -/
theorem c9_yield_semantics_witness :
    (execute_action c6wFx c9wSm .yield ["msg"] = .ok none ∧
      actionSendAttempt c9wSm .yield ["msg"] = some "msg") ∧
    (execute_action c6wFx c9wSmNoRx .yield ["msg"] = .error (.sendError "msg") ∧
      actionSendAttempt c9wSmNoRx .yield ["msg"] = some "msg") ∧
    (execute_action c6wFx c9wSm .yield [] = .ok none ∧
      actionSendAttempt c9wSm .yield [] = none) := by
  refine ⟨?_, ?_, ?_⟩
  · exact (c9_yield_semantics c6wFx c9wSm ["msg"]).1
      { capacity := 100, receivers := 1 } "msg" rfl rfl (by decide)
  · exact (c9_yield_semantics c6wFx c9wSmNoRx ["msg"]).2.1
      { capacity := 100, receivers := 0 } "msg" rfl rfl rfl
  · exact (c9_yield_semantics c6wFx c9wSm []).2.2.2 rfl

/-! ## Claim C10 -/

/-- C10: each surviving action output is itself passed through the
placeholder resolver — with the *previous* state's first response-context
element as the substitution value (the collection closure captures the old
buffer before reassignment) — before being stored, so the new
response-context holds the resolved forms, not the raw outputs
(`stateResponses` unfolds to exactly that `map` of the resolver over the
surviving outputs). -/
theorem c10_outputs_resolved (fx : Effects) (sm : StateMachine) (key : String)
    (buf : List String) (state_config : AgentConfig) (fuel : Nat)
    (h1 : lookupState sm.config key = some state_config)
    (h2 : state_config.next_state = none) :
    run fx (fuel + 1) sm key buf = some (.ok (stateResponses fx sm state_config buf)) ∧
    stateResponses fx sm state_config buf
      = (successOutputs (state_config.actions.map
            (fun action => execute_action fx sm action buf))).map
          (fun result => process_placeholders fx.env result buf.head?) := by
  refine ⟨?_, rfl⟩
  rw [run, h1]
  simp only [collect_responses_state, h2]

/-- Configuration for the C10 witness: a single `CallApi` state. -/
def c10wConfig : Config :=
  .mk "w" "start" [("start", .mk [.callApi fixtureApi] none)] none

/-- Oracles for the C10 witness: the transport output carries a marker and
the environment resolves it, so the stored context differs from the raw
output. -/
def c10wFx : Effects :=
  { env := fun v => if v = "greeting" then some "hi" else none
    api := fun _ => .ok "{greeting} there"
    load_config_from_path := fun p => .error (.configLoad p)
    childRun := fun _ _ _ => .error (.childFailed "unused")
    inputEvent := .timedOut }

/-- Witness for C10: the run stores `"hi there"` — the resolved form of the
raw transport output `"{greeting} there"`. -/
theorem c10_outputs_resolved_witness :
    run c10wFx 1 (StateMachine.new c10wConfig) "start" [] = some (.ok ["hi there"]) ∧
    ("hi there" : String) ≠ "{greeting} there" := by
  refine ⟨(c10_outputs_resolved c10wFx (StateMachine.new c10wConfig) "start" []
    (.mk [.callApi fixtureApi] none) 0 rfl rfl).1, by decide⟩

end DSM
